import Mathlib

/-!
Verification development for the MRtrix registration fragment consisting of
`lib/registration/transform/base.h` (the linear-transform base class with its
half-space square-root decomposition) and `cmd/mrregister.cpp` (the
rigid/affine/SyN orchestration command).

Conventions of the shallow embedding:
* Eigen's `double` scalars are modelled as exact rationals `ℚ`.
* An `Eigen::Transform<_,3,AffineCompact>` (a 3×4 matrix) is a pair of a 3×3
  linear block and a translation column (`AffineCompact` below).
* The homogeneous 4×4 matrix built inside `compute_halfspace_transformations`
  is indexed by `Fin 3 ⊕ Fin 1`: the `Sum.inl` rows/columns are the spatial
  block, the `Sum.inr` row is the `[0 0 0 1]` row appended by `setIdentity`.
* Eigen's `MatrixBase::sqrt()` is an external library routine; it is modelled
  by an arbitrary function `sqrtFn` together with the contract `SqrtSpec`
  (a principal square root of an affine homogeneous matrix: it squares to the
  argument and keeps the `[0 0 0 1]` bottom row).
* The `assert` statements of the C++ are debug-build precondition checks; the
  `..._checked` variants model them as `Option`-valued guards (`none` models
  the aborted computation), while the plain functions model the release-build
  (unchecked) semantics used by the command-level model of `mrregister.cpp`.
-/

namespace MRtrix

abbrev Vec3 := Fin 3 → ℚ

abbrev Mat3 := Matrix (Fin 3) (Fin 3) ℚ

/-- Index type of the homogeneous 4×4 matrix: three spatial rows plus the
appended `[0 0 0 1]` row. -/
abbrev I4 := Fin 3 ⊕ Fin 1

abbrev Mat4 := Matrix I4 I4 ℚ

/-- An `Eigen::Transform<double,3,AffineCompact>`: 3×3 linear block plus a
translation column, as stored in the fields `trafo`, `trafo_half`,
`trafo_half_inverse` of `Registration::Transform::Base`. -/
structure AffineCompact where
  linear : Mat3
  translation : Vec3

namespace AffineCompact

instance : DecidableEq AffineCompact := fun a b =>
  decidable_of_iff (a.linear = b.linear ∧ a.translation = b.translation)
    (by cases a; cases b; simp)

/-- Composition of affine-compact transforms, `t1 * t2` in Eigen:
`(A,a) ∘ (B,b) = (A·B, A·b + a)`. -/
def comp (t1 t2 : AffineCompact) : AffineCompact :=
  ⟨t1.linear * t2.linear, t1.linear.mulVec t2.translation + t1.translation⟩

/-- The identity transform (`setIdentity()`). -/
def idA : AffineCompact := ⟨1, 0⟩

/-- Explicit 3×3 determinant (the cofactor expansion; agrees with
`Matrix.det` by `det3_eq`). -/
def det3 (m : Mat3) : ℚ :=
  m 0 0 * m 1 1 * m 2 2 - m 0 0 * m 1 2 * m 2 1
    - m 0 1 * m 1 0 * m 2 2 + m 0 1 * m 1 2 * m 2 0
    + m 0 2 * m 1 0 * m 2 1 - m 0 2 * m 1 1 * m 2 0

/-- Explicit 3×3 adjugate (agrees with `Matrix.adjugate` by `adj3_eq`). -/
def adj3 (m : Mat3) : Mat3 :=
  !![m 1 1 * m 2 2 - m 1 2 * m 2 1,
    -(m 0 1 * m 2 2) + m 0 2 * m 2 1,
    m 0 1 * m 1 2 - m 0 2 * m 1 1;
    -(m 1 0 * m 2 2) + m 1 2 * m 2 0,
    m 0 0 * m 2 2 - m 0 2 * m 2 0,
    -(m 0 0 * m 1 2) + m 0 2 * m 1 0;
    m 1 0 * m 2 1 - m 1 1 * m 2 0,
    -(m 0 0 * m 2 1) + m 0 1 * m 2 0,
    m 0 0 * m 1 1 - m 0 1 * m 1 0]

/-- Fully evaluable matrix inverse over `ℚ` (the field inverse of the
determinant times the adjugate); agrees with Mathlib's `Matrix.inv` by
`cInv_eq_inv`. -/
def cInv (m : Mat3) : Mat3 := (det3 m)⁻¹ • adj3 m

/-- Eigen's `Transform::inverse()` for an affine transform:
`(A,a)⁻¹ = (A⁻¹, -A⁻¹·a)`. -/
def inverseA (t : AffineCompact) : AffineCompact :=
  ⟨cInv t.linear, -((cInv t.linear).mulVec t.translation)⟩

/-- The homogeneous 4×4 form: `tmp.setIdentity(); tmp.block<3,4>(0,0) = t`. -/
def toHomog (t : AffineCompact) : Mat4 :=
  Matrix.fromBlocks t.linear (Matrix.of fun i (_ : Fin 1) => t.translation i) 0 1

/-- Extraction of the 3×4 block of a 4×4 matrix
(`trafo_half.matrix() = tmp.block<3,4>(0,0)`). -/
def blockOf (m : Mat4) : AffineCompact :=
  ⟨Matrix.of fun i j => m (Sum.inl i) (Sum.inl j), fun i => m (Sum.inl i) (Sum.inr 0)⟩

end AffineCompact

open AffineCompact

/-- The contract of Eigen's `MatrixBase::sqrt()` on an affine homogeneous
matrix: `r` is a square root of `m` and keeps the `[0 0 0 1]` bottom row
(the principal square root of a block-upper-triangular matrix is
block-upper-triangular with the identity bottom-right block). -/
def SqrtSpec (r m : Mat4) : Prop :=
  r * r = m ∧ (∀ j : Fin 3, r (Sum.inr 0) (Sum.inl j) = 0) ∧ r (Sum.inr 0) (Sum.inr 0) = 1

/-- State of a `Registration::Transform::Base` object:
parameter count, the transform `trafo`, its two half-space decompositions,
and the centre of rotation.  The constructor sets the three transforms to the
identity and the centre to zero. -/
structure Base where
  number_of_parameters : ℕ
  trafo : AffineCompact
  trafo_half : AffineCompact
  trafo_half_inverse : AffineCompact
  centre : Vec3

namespace Base

instance : DecidableEq Base := fun a b =>
  decidable_of_iff (a.number_of_parameters = b.number_of_parameters ∧
      a.trafo = b.trafo ∧ a.trafo_half = b.trafo_half ∧
      a.trafo_half_inverse = b.trafo_half_inverse ∧ a.centre = b.centre)
    (by cases a; cases b; simp)

/-- `Base::Base(size_t number_of_parameters)`. -/
def init (n : ℕ) : Base := ⟨n, idA, idA, idA, 0⟩

/-- `Base::get_transform()`. -/
def get_transform (s : Base) : AffineCompact := s.trafo

/-- `Base::get_transform_half()`. -/
def get_transform_half (s : Base) : AffineCompact := s.trafo_half

/-- `Base::get_transform_half_inverse()`. -/
def get_transform_half_inverse (s : Base) : AffineCompact := s.trafo_half_inverse

/-- `Base::get_matrix()`. -/
def get_matrix (s : Base) : Mat3 := s.trafo.linear

/-- `Base::get_translation()`. -/
def get_translation (s : Base) : Vec3 := s.trafo.translation

/-- `Base::get_centre()`. -/
def get_centre (s : Base) : Vec3 := s.centre

/-- `Base::size()`. -/
def size (s : Base) : ℕ := s.number_of_parameters

/-- `Base::compute_offset()`:
`offset = trafo.translation() + centre - trafo.linear() * centre;
 trafo.translation() = offset;`. -/
def compute_offset (s : Base) : Base :=
  { s with trafo := ⟨s.trafo.linear,
      s.trafo.translation + s.centre - s.trafo.linear.mulVec s.centre⟩ }

/-- `Base::compute_halfspace_transformations()` (release semantics, asserts
disabled): build the homogeneous matrix, take its square root (`sqrtFn`),
store the 3×4 block as `trafo_half` and its affine inverse as
`trafo_half_inverse`. -/
def compute_halfspace_transformations (sqrtFn : Mat4 → Mat4) (s : Base) : Base :=
  let tmp := s.trafo.toHomog
  let r := sqrtFn tmp
  let half := blockOf r
  { s with trafo_half := half, trafo_half_inverse := inverseA half }

/-- `Base::compute_halfspace_transformations()` (debug semantics): the
`assert(tmp.determinant() > 0)` precondition check is modelled as an `Option`
guard; `none` models the assertion failure aborting the computation. -/
def compute_halfspace_transformations_checked (sqrtFn : Mat4 → Mat4) (s : Base) :
    Option Base :=
  if 0 < s.trafo.toHomog.det then some (compute_halfspace_transformations sqrtFn s)
  else none

/-- `Base::set_transform(transform)`: copy the 3×4 block, then recompute the
half-space transforms (no offset recomputation). -/
def set_transform (sqrtFn : Mat4 → Mat4) (t : AffineCompact) (s : Base) : Base :=
  compute_halfspace_transformations sqrtFn { s with trafo := t }

/-- `Base::set_matrix(mat)`. -/
def set_matrix (sqrtFn : Mat4 → Mat4) (m : Mat3) (s : Base) : Base :=
  compute_halfspace_transformations sqrtFn
    (compute_offset { s with trafo := ⟨m, s.trafo.translation⟩ })

/-- `Base::set_translation(trans)`. -/
def set_translation (sqrtFn : Mat4 → Mat4) (v : Vec3) (s : Base) : Base :=
  compute_halfspace_transformations sqrtFn
    (compute_offset { s with trafo := ⟨s.trafo.linear, v⟩ })

/-- `Base::set_centre(centre_in)`. -/
def set_centre (sqrtFn : Mat4 → Mat4) (c : Vec3) (s : Base) : Base :=
  compute_halfspace_transformations sqrtFn
    (compute_offset { s with centre := c })

/-- `Base::set_offset(offset_in)`: sets the translation directly and
recomputes the half-space transforms (no offset recomputation). -/
def set_offset (sqrtFn : Mat4 → Mat4) (v : Vec3) (s : Base) : Base :=
  compute_halfspace_transformations sqrtFn { s with trafo := ⟨s.trafo.linear, v⟩ }

/-- The five mutations of a `Base` object named by claim C1. -/
inductive Mut where
  | set_transform (t : AffineCompact)
  | set_matrix (m : Mat3)
  | set_translation (v : Vec3)
  | set_centre (c : Vec3)
  | set_offset (v : Vec3)

/-- The state-field update performed by a mutation before
`compute_halfspace_transformations` runs (including `compute_offset` for the
three mutators that call it). -/
def Mut.update : Mut → Base → Base
  | .set_transform t, s => { s with trafo := t }
  | .set_matrix m, s => compute_offset { s with trafo := ⟨m, s.trafo.translation⟩ }
  | .set_translation v, s => compute_offset { s with trafo := ⟨s.trafo.linear, v⟩ }
  | .set_centre c, s => compute_offset { s with centre := c }
  | .set_offset v, s => { s with trafo := ⟨s.trafo.linear, v⟩ }

/-- A mutation under debug semantics: field update, then the checked
half-space recomputation. -/
def applyMutChecked (sqrtFn : Mat4 → Mat4) (μ : Mut) (s : Base) : Option Base :=
  compute_halfspace_transformations_checked sqrtFn (μ.update s)

/-- `Base::robust_estimate(gradient, grad_estimates, params, parameter_vector)`:
the default implementation adds every gradient estimate onto the incoming
gradient and returns `true`.  `params` and `parameter_vector` are unused by
the source. -/
def robust_estimate {n : ℕ} {P V : Type} (gradient : Fin n → ℚ)
    (grad_estimates : List (Fin n → ℚ)) (_params : P) (_parameter_vector : V) :
    (Fin n → ℚ) × Bool :=
  (grad_estimates.foldl (fun g e => g + e) gradient, true)

end Base

/-!
Command-level model of `cmd/mrregister.cpp`'s `run()`.

The external collaborators are abstracted as follows:
* images are represented by their dimensionality data (`im1_ndim`, `im2_ndim`,
  sizes along axis 3, and the dimensionality of the `-syn_init` warp bundle);
* each command-line option is a `Config` field recording its presence and the
  part of its value that `run()` inspects;
* `run_masked` of `Registration::Linear` (outside this source fragment) is an
  oracle `Base → Base` mapping the transform being optimised to its optimised
  value; the default-constructed `Rigid`/`Transform::Affine` objects are the
  parameters `rigid0`/`affine0`;
* `throw Exception(...)` aborts the run with the corresponding `Err` value and
  no further events; `WARN`, stage executions and output resampling are
  recorded in order as `Event`s.
-/

/-- The `-type` choices (`transformation_choices`). -/
inductive RegType where
  | rigid | affine | syn | rigid_affine | rigid_syn | affine_syn | rigid_affine_syn
deriving DecidableEq

/-- `Registration::LinearMetricType` values used by `mrregister`. -/
inductive LMetric where
  | Diff | NCC
deriving DecidableEq

/-- `Registration::LinearRobustMetricEstimatorType`: `None`, `L1`, `L2`, `LP`. -/
inductive REst where
  | noEst | L1 | L2 | LP
deriving DecidableEq

/-- `Registration::Transform::Init` initialisation policies; `noInit` is
`Init::none`. -/
inductive InitPolicy where
  | mass | geometric | moments | noInit
deriving DecidableEq

/-- The metric object constructed for a linear stage's `run_masked` call. -/
inductive MetricSel where
  | meanSquared
  | meanSquared4D
  | crossCorrelation
  | diffRobust (est : REst)
  | diffRobust4D (est : REst)
deriving DecidableEq

/-- The `throw Exception` sites of `mrregister.cpp`'s `run()` (and of
`load_image`'s callers), one constructor per distinct configuration error. -/
inductive Err where
  | dimsMismatch            -- input images do not have the same number of dimensions
  | ndimTooLarge            -- image dimensions larger than 4 are not supported
  | volsMismatch            -- not the same number of volumes in the 4th dimension
  | lmaxOdd                 -- the input lmax must be even
  | notEnoughSH             -- not enough SH coefficients within input image
  | rigidOutputNoRigid      -- rigid transformation output requested when no rigid registration
  | rigidInitCentreExclusive -- -rigid_init and -rigid_centre are mutually exclusive
  | rigidScaleNoRigid       -- rigid scale factors input when no rigid registration
  | rigidNiterNoRigid       -- rigid iterations input when no rigid registration
  | affineOutputNoAffine    -- affine transformation output requested when no affine registration
  | affine1tomidNoAffine    -- midway affine output requested when no affine registration
  | affine2tomidNoAffine    -- midway affine output requested when no affine registration
  | bothInits               -- cannot initialise with both a rigid and affine transformation
  | affineInitWithRigid     -- cannot use -affine_init since a rigid registration is performed
  | affineCentreInitExclusive -- -affine_init and -affine_centre are mutually exclusive
  | affineScaleNoAffine     -- affine scale factors input when no affine registration
  | affineRepetitionsNoAffine -- affine repetition factors input when no affine registration
  | affineLoopDensityNoAffine -- affine sparsity factor input when no affine registration
  | affineNiterNoAffine     -- affine iterations input when no affine registration
  | synWarpNoSyn            -- SyN warp output requested when no SyN registration
  | synInitNoSyn            -- syn initialisation input when no syn registration
  | synInitNot5D            -- syn initialisation input is not 5D
  | synScaleNoSyn           -- syn scale factors input when no syn registration
  | synNiterNoSyn           -- syn iterations input when no SyN registration
  | synNiterResume          -- when initialising, iterations definable for a single level only
  | synUpdateSmoothNoSyn    -- update smoothing parameter input when no SyN registration
  | synDispSmoothNoSyn      -- displacement smoothing parameter input when no SyN registration
  | synGradStepNoSyn        -- gradient step input when no SyN registration
  | nccNot4D                -- cross correlation metric not implemented for > 3 dimensions
deriving DecidableEq

/-- Observable actions of a run, recorded in execution order. -/
inductive Event where
  | warnNoAffine            -- no affine registration when initialising with syn warps
  | warnNoRigid             -- no rigid registration when initialising with syn warps
  | warnAffineInitIgnored   -- -affine_init has no effect (warp header holds the linear part)
  | warnRigidInitIgnored    -- -rigid_init has no effect (warp header holds the linear part)
  | warnSynScaleIgnored     -- -syn_scale ignored when initialising with syn warp
  | synInitialised          -- syn_registration.initialise(input_warps)
  | rigidOptimisation (initial : Base) (policy : Option InitPolicy) (metric : MetricSel)
  | affineOptimisation (initial : Base) (policy : Option InitPolicy) (metric : MetricSel)
  | synRun (seed : Base)    -- syn_registration.run(seed, ...)
  | resampleTransformed     -- output of image1 transformed to image2 space
  | resampleMidway          -- output of both images in midway space

/-- Is the event a stage execution (an optimisation loop / resampling driver
starting)? -/
def Event.isStageRun : Event → Bool
  | .rigidOptimisation _ _ _ => true
  | .affineOptimisation _ _ _ => true
  | .synRun _ => true
  | _ => false

/-- Is the event an output resampling? -/
def Event.isResample : Event → Bool
  | .resampleTransformed => true
  | .resampleMidway => true
  | _ => false

/-- Is the event an affine-stage optimisation? -/
def Event.isAffineRun : Event → Bool
  | .affineOptimisation _ _ _ => true
  | _ => false

/-- The command-line configuration and input-image data inspected by `run()`.
`Option` fields are `none` when the option is absent; for options whose value
matters to control flow only through a size or a dimensionality, that number
is stored. -/
structure Config where
  im1_ndim : ℕ
  im2_ndim : ℕ
  im1_size3 : ℕ
  im2_size3 : ℕ
  noreorientation : Bool
  lmaxOpt : Option ℕ
  transformedOpt : Bool
  transformedMidwayOpt : Bool
  typeOpt : Option RegType
  mask1Opt : Bool
  mask2Opt : Bool
  rigidFileOpt : Bool
  rigidInitOpt : Option AffineCompact
  rigidCentreOpt : Option InitPolicy
  rigidScaleOpt : Bool
  rigidNiterOpt : Bool
  rigidMetricOpt : Option LMetric
  rigidGlobalSearchOpt : Bool
  affineFileOpt : Bool
  affine1tomidOpt : Bool
  affine2tomidOpt : Bool
  affineInitOpt : Option AffineCompact
  affineCentreOpt : Option InitPolicy
  affineScaleOpt : Bool
  affineRepetitionsOpt : Bool
  affineLoopDensityOpt : Bool
  affineMetricOpt : Option LMetric
  affineRobustEstimatorOpt : Option REst
  affineRobustMedianOpt : Bool
  affineGlobalSearchOpt : Bool
  affineNiterOpt : Bool
  synWarpOpt : Bool
  synInitOpt : Option ℕ     -- ndim of the warp bundle image
  synScaleOpt : Option ℕ    -- length of the parsed scale-factor list
  synNiterOpt : Option ℕ    -- length of the parsed iteration list
  synUpdateSmoothOpt : Bool
  synDispSmoothOpt : Bool
  synGradStepOpt : Bool

/-- Math::SH::LforN modelled from the spec: the largest even harmonic order
whose antipodally symmetric coefficient count fits in `n` coefficients
(`2 * floor((sqrt(1+8n)-3)/4)`; this routine lives outside the source
fragment). -/
def LforN (n : ℕ) : ℕ := if n = 0 then 0 else 2 * ((Nat.sqrt (1 + 8 * n) - 3) / 4)

/-- Math::SH::NforL modelled from the spec: the coefficient count
`(l+1)(l+2)/2` of an antipodally symmetric series of order `l` (this routine
lives outside the source fragment). -/
def NforL (l : ℕ) : ℕ := (l + 1) * (l + 2) / 2

/-- The SH-series detection `!(val - (int)val)` for
`val = (sqrt(1+8n)-3)/4`: `1+8n` is a perfect square whose root `k` has
`(k-3)/4` integral, i.e. `(k+1) % 4 = 0` (which agrees with the
real-arithmetic test also for roots below 3, where `val` is negative and
non-integral).  Implemented as a bounded search over the possible roots
(`k ≤ 3n+2` suffices since `(3n+2)² ≥ 1+8n`) so that it evaluates by plain
kernel reduction. -/
def isSHSeries (n : ℕ) : Bool :=
  (List.range (3 * n + 3)).any fun k => k * k == 1 + 8 * n && (k + 1) % 4 == 0

/-- The mutable locals of `run()` that the model tracks, plus the event trace
and the pending error. -/
structure RS where
  events : List Event
  err : Option Err
  do_reorientation : Bool
  do_rigid : Bool
  do_affine : Bool
  do_syn : Bool
  init_rigid_set : Bool
  init_affine_set : Bool
  rigid : Base
  affine : Base
  rigid_policy : Option InitPolicy   -- rigid_registration init type (none = engine default)
  affine_policy : Option InitPolicy  -- affine_registration init type (none = engine default)
  rigid_metric : LMetric
  affine_metric : LMetric
  affine_estimator : REst
  affine_robust_median : Bool
  rigid_global_search : Bool
  affine_global_search : Bool
  syn_resumed : Bool                 -- syn_registration.initialise was called

/-- `throw Exception(...)`: abort with error `e`. -/
def RS.fail (s : RS) (e : Err) : RS := { s with err := some e }

/-- Record an observable action. -/
def RS.emit (s : RS) (e : Event) : RS := { s with events := s.events ++ [e] }

/-- Run a step unless an exception is already pending. -/
def pstep (f : RS → RS) (s : RS) : RS := if s.err.isSome then s else f s

/-- Initial state: `do_reorientation = true` unless `-noreorientation`;
stage flags are set by `stp_type`; `rigid`/`affine` are the
default-constructed transform objects. -/
def RS.start (cfg : Config) (rigid0 affine0 : Base) : RS :=
  { events := [], err := none,
    do_reorientation := !cfg.noreorientation,
    do_rigid := false, do_affine := false, do_syn := false,
    init_rigid_set := false, init_affine_set := false,
    rigid := rigid0, affine := affine0,
    rigid_policy := none, affine_policy := none,
    rigid_metric := .Diff, affine_metric := .Diff,
    affine_estimator := .noEst, affine_robust_median := false,
    rigid_global_search := false, affine_global_search := false,
    syn_resumed := false }

/-- Lines 138-139: equal input dimensionality. -/
def stp_dims (cfg : Config) (s : RS) : RS :=
  if cfg.im1_ndim ≠ cfg.im2_ndim then s.fail .dimsMismatch else s

/-- Lines 150-193: dimensionality cap, volume-count check, SH detection and
lmax handling, `do_reorientation` downgrade for non-FOD input. -/
def stp_fod (cfg : Config) (s : RS) : RS :=
  if 4 < cfg.im2_ndim then s.fail .ndimTooLarge
  else if cfg.im2_ndim = 4 then
    if cfg.im1_size3 ≠ cfg.im2_size3 then s.fail .volsMismatch
    else if isSHSeries cfg.im2_size3 && s.do_reorientation && decide (1 < cfg.im2_size3) then
      let lmax0 := if LforN cfg.im2_size3 < 4 then LforN cfg.im2_size3 else 4
      match cfg.lmaxOpt with
      | some l =>
          if l % 2 = 1 then s.fail .lmaxOdd
          else if cfg.im2_size3 < NforL l then s.fail .notEnoughSH else s
      | none => if cfg.im2_size3 < NforL lmax0 then s.fail .notEnoughSH else s
    else { s with do_reorientation := false }
  else { s with do_reorientation := false }

/-- Lines 215-251: `-type` switch (default `affine_syn`). -/
def stp_type (cfg : Config) (s : RS) : RS :=
  match cfg.typeOpt.getD .affine_syn with
  | .rigid => { s with do_rigid := true }
  | .affine => { s with do_affine := true }
  | .syn => { s with do_syn := true }
  | .rigid_affine => { s with do_rigid := true, do_affine := true }
  | .rigid_syn => { s with do_rigid := true, do_syn := true }
  | .affine_syn => { s with do_affine := true, do_syn := true }
  | .rigid_affine_syn => { s with do_rigid := true, do_affine := true, do_syn := true }

/-- Lines 268-276: `-rigid` output file. -/
def stp_rigid_file (cfg : Config) (s : RS) : RS :=
  if cfg.rigidFileOpt = true ∧ s.do_rigid = false then s.fail .rigidOutputNoRigid else s

/-- Lines 279-286: `-rigid_init`. -/
def stp_rigid_init (cfg : Config) (sq : Mat4 → Mat4) (s : RS) : RS :=
  match cfg.rigidInitOpt with
  | none => s
  | some t => { s with init_rigid_set := true,
                       rigid := Base.set_transform sq t s.rigid,
                       rigid_policy := some .noInit }

/-- Lines 288-308: `-rigid_centre`. -/
def stp_rigid_centre (cfg : Config) (s : RS) : RS :=
  match cfg.rigidCentreOpt with
  | none => s
  | some p =>
      if s.init_rigid_set then s.fail .rigidInitCentreExclusive
      else { s with rigid_policy := some p }

/-- Lines 310-315: `-rigid_scale`. -/
def stp_rigid_scale (cfg : Config) (s : RS) : RS :=
  if cfg.rigidScaleOpt = true ∧ s.do_rigid = false then s.fail .rigidScaleNoRigid else s

/-- Lines 317-322: `-rigid_niter`. -/
def stp_rigid_niter (cfg : Config) (s : RS) : RS :=
  if cfg.rigidNiterOpt = true ∧ s.do_rigid = false then s.fail .rigidNiterNoRigid else s

/-- Lines 324-337: `-rigid_metric` (no stage-selection check in the source). -/
def stp_rigid_metric (cfg : Config) (s : RS) : RS :=
  match cfg.rigidMetricOpt with
  | none => s
  | some m => { s with rigid_metric := m }

/-- Lines 339-341: `-rigid_global_search` (no stage-selection check). -/
def stp_rigid_global (cfg : Config) (s : RS) : RS :=
  if cfg.rigidGlobalSearchOpt then { s with rigid_global_search := true } else s

/-- Lines 346-354: `-affine` output file. -/
def stp_affine_file (cfg : Config) (s : RS) : RS :=
  if cfg.affineFileOpt = true ∧ s.do_affine = false then s.fail .affineOutputNoAffine else s

/-- Lines 356-364: `-affine_1tomidway`. -/
def stp_affine_1tomid (cfg : Config) (s : RS) : RS :=
  if cfg.affine1tomidOpt = true ∧ s.do_affine = false then s.fail .affine1tomidNoAffine else s

/-- Lines 366-374: `-affine_2tomidway`. -/
def stp_affine_2tomid (cfg : Config) (s : RS) : RS :=
  if cfg.affine2tomidOpt = true ∧ s.do_affine = false then s.fail .affine2tomidNoAffine else s

/-- Lines 377-389: `-affine_init`. -/
def stp_affine_init (cfg : Config) (sq : Mat4 → Mat4) (s : RS) : RS :=
  match cfg.affineInitOpt with
  | none => s
  | some t =>
      if s.init_rigid_set then s.fail .bothInits
      else if s.do_rigid then s.fail .affineInitWithRigid
      else { s with init_affine_set := true,
                    affine := Base.set_transform sq t s.affine,
                    affine_policy := some .noInit }

/-- Lines 391-411: `-affine_centre`. -/
def stp_affine_centre (cfg : Config) (s : RS) : RS :=
  match cfg.affineCentreOpt with
  | none => s
  | some p =>
      if s.init_affine_set then s.fail .affineCentreInitExclusive
      else { s with affine_policy := some p }

/-- Lines 413-418: `-affine_scale`. -/
def stp_affine_scale (cfg : Config) (s : RS) : RS :=
  if cfg.affineScaleOpt = true ∧ s.do_affine = false then s.fail .affineScaleNoAffine else s

/-- Lines 420-425: `-affine_repetitions`. -/
def stp_affine_repetitions (cfg : Config) (s : RS) : RS :=
  if cfg.affineRepetitionsOpt = true ∧ s.do_affine = false then
    s.fail .affineRepetitionsNoAffine
  else s

/-- Lines 427-432: `-affine_loop_density`. -/
def stp_affine_loop_density (cfg : Config) (s : RS) : RS :=
  if cfg.affineLoopDensityOpt = true ∧ s.do_affine = false then
    s.fail .affineLoopDensityNoAffine
  else s

/-- Lines 434-447: `-affine_metric` (no stage-selection check). -/
def stp_affine_metric (cfg : Config) (s : RS) : RS :=
  match cfg.affineMetricOpt with
  | none => s
  | some m => { s with affine_metric := m }

/-- Lines 449-465: `-affine_robust_estimator` (no stage-selection check). -/
def stp_affine_estimator (cfg : Config) (s : RS) : RS :=
  match cfg.affineRobustEstimatorOpt with
  | none => s
  | some e => { s with affine_estimator := e }

/-- Line 467: `-affine_robust_median` (no stage-selection check). -/
def stp_affine_median (cfg : Config) (s : RS) : RS :=
  { s with affine_robust_median := cfg.affineRobustMedianOpt }

/-- Lines 469-471: `-affine_global_search` (no stage-selection check). -/
def stp_affine_global (cfg : Config) (s : RS) : RS :=
  if cfg.affineGlobalSearchOpt then { s with affine_global_search := true } else s

/-- Lines 473-478: `-affine_niter`. -/
def stp_affine_niter (cfg : Config) (s : RS) : RS :=
  if cfg.affineNiterOpt = true ∧ s.do_affine = false then s.fail .affineNiterNoAffine else s

/-- Lines 484-490: `-syn_warp`. -/
def stp_syn_warp (cfg : Config) (s : RS) : RS :=
  if cfg.synWarpOpt = true ∧ s.do_syn = false then s.fail .synWarpNoSyn else s

/-- Lines 493-519: `-syn_init`: 5-D bundle check, engine initialisation, and
the warnings superseding the linear stages. -/
def stp_syn_init (cfg : Config) (s : RS) : RS :=
  match cfg.synInitOpt with
  | none => s
  | some w =>
      if s.do_syn = false then s.fail .synInitNoSyn
      else if w ≠ 5 then s.fail .synInitNot5D
      else
        let s := ({ s with syn_resumed := true }).emit .synInitialised
        let s := if s.do_affine then { s.emit .warnNoAffine with do_affine := false } else s
        let s := if s.do_rigid then { s.emit .warnNoRigid with do_rigid := false } else s
        let s := if s.init_affine_set then s.emit .warnAffineInitIgnored else s
        if s.init_rigid_set then s.emit .warnRigidInitIgnored else s

/-- Lines 522-532: `-syn_scale`. -/
def stp_syn_scale (cfg : Config) (s : RS) : RS :=
  match cfg.synScaleOpt with
  | none => s
  | some len =>
      if s.do_syn = false then s.fail .synScaleNoSyn
      else if s.syn_resumed = true ∧ 1 < len then s.emit .warnSynScaleIgnored
      else s

/-- Lines 534-543: `-syn_niter`. -/
def stp_syn_niter (cfg : Config) (s : RS) : RS :=
  match cfg.synNiterOpt with
  | none => s
  | some len =>
      if s.do_syn = false then s.fail .synNiterNoSyn
      else if s.syn_resumed = true ∧ 1 < len then s.fail .synNiterResume
      else s

/-- Lines 545-550: `-syn_update_smooth`. -/
def stp_syn_update_smooth (cfg : Config) (s : RS) : RS :=
  if cfg.synUpdateSmoothOpt = true ∧ s.do_syn = false then s.fail .synUpdateSmoothNoSyn else s

/-- Lines 552-557: `-syn_disp_smooth`. -/
def stp_syn_disp_smooth (cfg : Config) (s : RS) : RS :=
  if cfg.synDispSmoothOpt = true ∧ s.do_syn = false then s.fail .synDispSmoothNoSyn else s

/-- Lines 559-564: `-syn_grad_step`. -/
def stp_syn_grad_step (cfg : Config) (s : RS) : RS :=
  if cfg.synGradStepOpt = true ∧ s.do_syn = false then s.fail .synGradStepNoSyn else s

/-- Lines 568-591: the rigid stage: NCC rejection on 4-D data, metric
construction, `run_masked`. -/
def stp_run_rigid (cfg : Config) (rigidOpt : Base → Base) (s : RS) : RS :=
  if s.do_rigid = false then s
  else if cfg.im2_ndim = 4 then
    if s.rigid_metric = .NCC then s.fail .nccNot4D
    else
      let s := s.emit (.rigidOptimisation s.rigid s.rigid_policy .meanSquared4D)
      { s with rigid := rigidOpt s.rigid }
  else if s.rigid_metric = .NCC then
    let s := s.emit (.rigidOptimisation s.rigid s.rigid_policy .crossCorrelation)
    { s with rigid := rigidOpt s.rigid }
  else
    let s := s.emit (.rigidOptimisation s.rigid s.rigid_policy .meanSquared)
    { s with rigid := rigidOpt s.rigid }

/-- Lines 594-663: the affine stage: seeding from the rigid result (centre,
translation, matrix, init type `none`), NCC rejection on 4-D data,
metric/estimator dispatch, `run_masked`. -/
def stp_run_affine (cfg : Config) (sq : Mat4 → Mat4) (affineOpt : Base → Base) (s : RS) : RS :=
  if s.do_affine = false then s
  else
    let s :=
      if s.do_rigid then
        { s with affine := Base.set_matrix sq s.rigid.trafo.linear
                   (Base.set_translation sq s.rigid.trafo.translation
                     (Base.set_centre sq s.rigid.centre s.affine)),
                 affine_policy := some .noInit }
      else s
    if cfg.im2_ndim = 4 then
      match s.affine_metric with
      | .NCC => s.fail .nccNot4D
      | .Diff =>
          let m := match s.affine_estimator with
            | .noEst => MetricSel.meanSquared4D
            | .L1 => MetricSel.diffRobust4D .L1
            | .L2 => MetricSel.diffRobust4D .L2
            | .LP => MetricSel.diffRobust4D .LP
          let s := s.emit (.affineOptimisation s.affine s.affine_policy m)
          { s with affine := affineOpt s.affine }
    else
      match s.affine_metric with
      | .NCC =>
          let s := s.emit (.affineOptimisation s.affine s.affine_policy .crossCorrelation)
          { s with affine := affineOpt s.affine }
      | .Diff =>
          let m := match s.affine_estimator with
            | .noEst => MetricSel.meanSquared
            | .L1 => MetricSel.diffRobust .L1
            | .L2 => MetricSel.diffRobust .L2
            | .LP => MetricSel.diffRobust .LP
          let s := s.emit (.affineOptimisation s.affine s.affine_policy m)
          { s with affine := affineOpt s.affine }

/-- Lines 667-688: the SyN stage: seeded with the affine result if affine ran,
else the rigid result, else a fresh default-constructed (identity) transform. -/
def stp_run_syn (affine0 : Base) (s : RS) : RS :=
  if s.do_syn = false then s
  else if s.do_affine then s.emit (.synRun s.affine)
  else if s.do_rigid then s.emit (.synRun s.rigid)
  else s.emit (.synRun affine0)

/-- Lines 692-727: `-transformed` output resampling. -/
def stp_out_transformed (cfg : Config) (s : RS) : RS :=
  if cfg.transformedOpt then s.emit .resampleTransformed else s

/-- Lines 730-773: `-transformed_midway` output resampling. -/
def stp_out_midway (cfg : Config) (s : RS) : RS :=
  if cfg.transformedMidwayOpt then s.emit .resampleMidway else s

/-- The whole of `run()`: the numbered steps in source order, each skipped
once an exception is pending (a C++ `throw` aborts the remainder). -/
def run (cfg : Config) (sq : Mat4 → Mat4) (rigid0 affine0 : Base)
    (rigidOpt affineOpt : Base → Base) : RS :=
  let s := RS.start cfg rigid0 affine0
  let s := pstep (stp_dims cfg) s
  let s := pstep (stp_fod cfg) s
  let s := pstep (stp_type cfg) s
  let s := pstep (stp_rigid_file cfg) s
  let s := pstep (stp_rigid_init cfg sq) s
  let s := pstep (stp_rigid_centre cfg) s
  let s := pstep (stp_rigid_scale cfg) s
  let s := pstep (stp_rigid_niter cfg) s
  let s := pstep (stp_rigid_metric cfg) s
  let s := pstep (stp_rigid_global cfg) s
  let s := pstep (stp_affine_file cfg) s
  let s := pstep (stp_affine_1tomid cfg) s
  let s := pstep (stp_affine_2tomid cfg) s
  let s := pstep (stp_affine_init cfg sq) s
  let s := pstep (stp_affine_centre cfg) s
  let s := pstep (stp_affine_scale cfg) s
  let s := pstep (stp_affine_repetitions cfg) s
  let s := pstep (stp_affine_loop_density cfg) s
  let s := pstep (stp_affine_metric cfg) s
  let s := pstep (stp_affine_estimator cfg) s
  let s := pstep (stp_affine_median cfg) s
  let s := pstep (stp_affine_global cfg) s
  let s := pstep (stp_affine_niter cfg) s
  let s := pstep (stp_syn_warp cfg) s
  let s := pstep (stp_syn_init cfg) s
  let s := pstep (stp_syn_scale cfg) s
  let s := pstep (stp_syn_niter cfg) s
  let s := pstep (stp_syn_update_smooth cfg) s
  let s := pstep (stp_syn_disp_smooth cfg) s
  let s := pstep (stp_syn_grad_step cfg) s
  let s := pstep (stp_run_rigid cfg rigidOpt) s
  let s := pstep (stp_run_affine cfg sq affineOpt) s
  let s := pstep (stp_run_syn affine0) s
  let s := pstep (stp_out_transformed cfg) s
  pstep (stp_out_midway cfg) s

/-- A concrete square-root stand-in used to instantiate `sq` in closed runs
(its value never influences the facts checked about those runs). -/
def sqrtId : Mat4 → Mat4 := fun _ => 1

/-- Baseline configuration: two 3-D single-volume inputs and no options. -/
def cfg0 : Config :=
  { im1_ndim := 3, im2_ndim := 3, im1_size3 := 1, im2_size3 := 1,
    noreorientation := false, lmaxOpt := none,
    transformedOpt := false, transformedMidwayOpt := false,
    typeOpt := none, mask1Opt := false, mask2Opt := false,
    rigidFileOpt := false, rigidInitOpt := none, rigidCentreOpt := none,
    rigidScaleOpt := false, rigidNiterOpt := false, rigidMetricOpt := none,
    rigidGlobalSearchOpt := false,
    affineFileOpt := false, affine1tomidOpt := false, affine2tomidOpt := false,
    affineInitOpt := none, affineCentreOpt := none, affineScaleOpt := false,
    affineRepetitionsOpt := false, affineLoopDensityOpt := false,
    affineMetricOpt := none, affineRobustEstimatorOpt := none,
    affineRobustMedianOpt := false, affineGlobalSearchOpt := false,
    affineNiterOpt := false,
    synWarpOpt := false, synInitOpt := none, synScaleOpt := none,
    synNiterOpt := none, synUpdateSmoothOpt := false, synDispSmoothOpt := false,
    synGradStepOpt := false }

/-- A fully concrete run: square root stand-in, default-constructed 6- and
12-parameter transforms, identity optimisation oracles. -/
def runC (cfg : Config) : RS := run cfg sqrtId (Base.init 6) (Base.init 12) id id

/-- A scaling transform used as a counterexample input. -/
def cxT : AffineCompact := ⟨(2 : ℚ) • 1, 0⟩

/-- A transform object whose centre of rotation is `(1,1,1)`, used as a
counterexample input. -/
def cxS : Base := { Base.init 0 with centre := fun _ => 1 }

/-- 4-D non-SH input pair (2 volumes) with the rigid-stage metric set to NCC. -/
def cfg5rigid (t : RegType) : Config :=
  { cfg0 with
    im1_ndim := 4, im2_ndim := 4, im1_size3 := 2, im2_size3 := 2,
    typeOpt := some t, rigidMetricOpt := some .NCC }

/-- 4-D non-SH input pair (2 volumes) with the affine-stage metric set to NCC. -/
def cfg5affine (t : RegType) : Config :=
  { cfg0 with
    im1_ndim := 4, im2_ndim := 4, im1_size3 := 2, im2_size3 := 2,
    typeOpt := some t, affineMetricOpt := some .NCC }

/-- Resume the nonlinear stage from a bundle of dimensionality `w`. -/
def cfg6bundle (t : RegType) (w : ℕ) : Config :=
  { cfg0 with typeOpt := some t, synInitOpt := some w }

/-- Resume the nonlinear stage from a 5-D bundle with an iteration list of
length `len`. -/
def cfg6niter (t : RegType) (len : ℕ) : Config :=
  { cfg0 with typeOpt := some t, synInitOpt := some 5, synNiterOpt := some len }

/-- Resume the nonlinear stage from a valid 5-D bundle under stage choice `t`. -/
def cfg7 (t : RegType) : Config := { cfg0 with typeOpt := some t, synInitOpt := some 5 }

/-- Whether a stage choice includes the SyN stage. -/
def RegType.hasSyn : RegType → Bool
  | .syn | .rigid_syn | .affine_syn | .rigid_affine_syn => true
  | _ => false

/-- Stage sequencing configuration for claim C9. -/
def cfg9 (t : RegType) : Config := { cfg0 with typeOpt := some t }

/-- The rigid-result seed installed into the affine transform when both
linear stages run (`affine.set_centre`; `affine.set_translation`;
`affine.set_matrix` from the optimised rigid transform). -/
def affineSeed (sq : Mat4 → Mat4) (rigidRes affine0 : Base) : Base :=
  Base.set_matrix sq rigidRes.trafo.linear
    (Base.set_translation sq rigidRes.trafo.translation
      (Base.set_centre sq rigidRes.centre affine0))

/-- The stage-specific options that `run()` guards with a stage-selection
check. -/
inductive GuardedOpt where
  | rigidFile | rigidScale | rigidNiter
  | affineFile | affine1tomid | affine2tomid
  | affineScale | affineRepetitions | affineLoopDensity | affineNiter
  | synWarp | synInit | synScale | synNiter
  | synUpdateSmooth | synDispSmooth | synGradStep
deriving DecidableEq

/-- A stage choice that does not select the option's stage. -/
def GuardedOpt.baseType : GuardedOpt → RegType
  | .rigidFile | .rigidScale | .rigidNiter => .affine_syn
  | .affineFile | .affine1tomid | .affine2tomid | .affineScale
  | .affineRepetitions | .affineLoopDensity | .affineNiter => .rigid_syn
  | _ => .rigid

/-- Supply the option. -/
def GuardedOpt.addTo : GuardedOpt → Config → Config
  | .rigidFile, c => { c with rigidFileOpt := true }
  | .rigidScale, c => { c with rigidScaleOpt := true }
  | .rigidNiter, c => { c with rigidNiterOpt := true }
  | .affineFile, c => { c with affineFileOpt := true }
  | .affine1tomid, c => { c with affine1tomidOpt := true }
  | .affine2tomid, c => { c with affine2tomidOpt := true }
  | .affineScale, c => { c with affineScaleOpt := true }
  | .affineRepetitions, c => { c with affineRepetitionsOpt := true }
  | .affineLoopDensity, c => { c with affineLoopDensityOpt := true }
  | .affineNiter, c => { c with affineNiterOpt := true }
  | .synWarp, c => { c with synWarpOpt := true }
  | .synInit, c => { c with synInitOpt := some 5 }
  | .synScale, c => { c with synScaleOpt := some 1 }
  | .synNiter, c => { c with synNiterOpt := some 1 }
  | .synUpdateSmooth, c => { c with synUpdateSmoothOpt := true }
  | .synDispSmooth, c => { c with synDispSmoothOpt := true }
  | .synGradStep, c => { c with synGradStepOpt := true }

/-- The configuration error raised for the option without its stage. -/
def GuardedOpt.errOf : GuardedOpt → Err
  | .rigidFile => .rigidOutputNoRigid
  | .rigidScale => .rigidScaleNoRigid
  | .rigidNiter => .rigidNiterNoRigid
  | .affineFile => .affineOutputNoAffine
  | .affine1tomid => .affine1tomidNoAffine
  | .affine2tomid => .affine2tomidNoAffine
  | .affineScale => .affineScaleNoAffine
  | .affineRepetitions => .affineRepetitionsNoAffine
  | .affineLoopDensity => .affineLoopDensityNoAffine
  | .affineNiter => .affineNiterNoAffine
  | .synWarp => .synWarpNoSyn
  | .synInit => .synInitNoSyn
  | .synScale => .synScaleNoSyn
  | .synNiter => .synNiterNoSyn
  | .synUpdateSmooth => .synUpdateSmoothNoSyn
  | .synDispSmooth => .synDispSmoothNoSyn
  | .synGradStep => .synGradStepNoSyn

/-- The option supplied while its stage is unselected. -/
def cfg8g (o : GuardedOpt) : Config := o.addTo { cfg0 with typeOpt := some o.baseType }

/-- The stage-specific options that `run()` accepts with no stage-selection
check at all. -/
inductive UnguardedOpt where
  | rigidInit | rigidCentre | rigidMetric | rigidGlobalSearch
  | affineInit | affineCentre | affineMetric | affineRobustEstimator
  | affineRobustMedian | affineGlobalSearch
deriving DecidableEq

/-- Supply the option. -/
def UnguardedOpt.addTo : UnguardedOpt → Config → Config
  | .rigidInit, c => { c with rigidInitOpt := some AffineCompact.idA }
  | .rigidCentre, c => { c with rigidCentreOpt := some .mass }
  | .rigidMetric, c => { c with rigidMetricOpt := some .NCC }
  | .rigidGlobalSearch, c => { c with rigidGlobalSearchOpt := true }
  | .affineInit, c => { c with affineInitOpt := some AffineCompact.idA }
  | .affineCentre, c => { c with affineCentreOpt := some .mass }
  | .affineMetric, c => { c with affineMetricOpt := some .NCC }
  | .affineRobustEstimator, c => { c with affineRobustEstimatorOpt := some .L1 }
  | .affineRobustMedian, c => { c with affineRobustMedianOpt := true }
  | .affineGlobalSearch, c => { c with affineGlobalSearchOpt := true }

/-- The option supplied while neither linear stage is selected (`-type syn`). -/
def cfg8u (o : UnguardedOpt) : Config := o.addTo { cfg0 with typeOpt := some .syn }

/-- `-rigid_metric` supplied under the default `affine_syn` stage choice
(rigid not selected). -/
def cfg8cx : Config := { cfg0 with rigidMetricOpt := some .NCC }

/-!
Helper lemmas about the affine-compact algebra and the half-space
decomposition.
-/

namespace AffineCompact

theorem det3_eq (m : Mat3) : det3 m = m.det := by
  rw [det3, Matrix.det_fin_three]

theorem adj3_eq (m : Mat3) : adj3 m = m.adjugate := by
  rw [adj3, Matrix.adjugate_fin_three]

theorem cInv_eq_inv (m : Mat3) : cInv m = m⁻¹ := by
  rw [cInv, det3_eq, adj3_eq, Matrix.inv_def, Ring.inverse_eq_inv']

theorem inverseA_def (t : AffineCompact) :
    inverseA t = ⟨t.linear⁻¹, -(t.linear⁻¹.mulVec t.translation)⟩ := by
  rw [inverseA, cInv_eq_inv]

theorem det_toHomog (t : AffineCompact) : t.toHomog.det = t.linear.det := by
  rw [toHomog, Matrix.det_fromBlocks_zero₂₁, Matrix.det_one, mul_one]

/-- The 3×4 block of a square root of `T.toHomog` composes with itself to `T`
(the bottom row of the root being `[0 0 0 1]`). -/
theorem comp_blockOf_self {R : Mat4} {T : AffineCompact} (h : SqrtSpec R T.toHomog) :
    comp (blockOf R) (blockOf R) = T := by
  obtain ⟨hRR, hB0, hB1⟩ := h
  have hlin : (blockOf R).linear * (blockOf R).linear = T.linear := by
    ext i j
    have h2 : (R * R) (Sum.inl i) (Sum.inl j) = T.toHomog (Sum.inl i) (Sum.inl j) := by
      rw [hRR]
    rw [Matrix.mul_apply, Fintype.sum_sum_type, Fin.sum_univ_one, hB0 j, mul_zero,
      add_zero] at h2
    rw [toHomog, Matrix.fromBlocks_apply₁₁] at h2
    rw [Matrix.mul_apply]
    simpa [blockOf] using h2
  have htr : (blockOf R).linear.mulVec (blockOf R).translation + (blockOf R).translation =
      T.translation := by
    funext i
    have h2 : (R * R) (Sum.inl i) (Sum.inr 0) = T.toHomog (Sum.inl i) (Sum.inr 0) := by
      rw [hRR]
    rw [Matrix.mul_apply, Fintype.sum_sum_type, Fin.sum_univ_one, hB1, mul_one] at h2
    rw [toHomog, Matrix.fromBlocks_apply₁₂, Matrix.of_apply] at h2
    simpa [blockOf, Matrix.mulVec, Matrix.dotProduct] using h2
  cases T
  exact congrArg₂ AffineCompact.mk hlin htr

/-- A 4×4 matrix with bottom row `[0 0 0 1]` is the homogeneous form of its
own 3×4 block. -/
theorem toHomog_blockOf {R : Mat4} (hB0 : ∀ j : Fin 3, R (Sum.inr 0) (Sum.inl j) = 0)
    (hB1 : R (Sum.inr 0) (Sum.inr 0) = 1) : (blockOf R).toHomog = R := by
  ext i j
  cases i with
  | inl a =>
    cases j with
    | inl b => simp [toHomog, blockOf]
    | inr b =>
      obtain rfl : b = 0 := Fin.eq_zero b
      simp [toHomog, blockOf]
  | inr a =>
    obtain rfl : a = 0 := Fin.eq_zero a
    cases j with
    | inl b => simp [toHomog, hB0 b]
    | inr b =>
      obtain rfl : b = 0 := Fin.eq_zero b
      simp [toHomog, hB1]

theorem comp_inverseA_self {t : AffineCompact} (h : IsUnit t.linear.det) :
    comp (inverseA t) t = idA := by
  rw [inverseA_def, idA, comp]
  exact congrArg₂ AffineCompact.mk (Matrix.nonsing_inv_mul _ h) (by abel)

theorem comp_self_inverseA {t : AffineCompact} (h : IsUnit t.linear.det) :
    comp t (inverseA t) = idA := by
  rw [inverseA_def, idA, comp]
  refine congrArg₂ AffineCompact.mk (Matrix.mul_nonsing_inv _ h) ?_
  rw [Matrix.mulVec_neg, Matrix.mulVec_mulVec, Matrix.mul_nonsing_inv _ h,
    Matrix.one_mulVec]
  abel

/-- If `a ∘ a = T` with `a` invertible, then `a⁻¹ ∘ a⁻¹ = T⁻¹` (as affine
transforms). -/
theorem comp_inverseA_inverseA {a T : AffineCompact} (ha : IsUnit a.linear.det)
    (hc : comp a a = T) : comp (inverseA a) (inverseA a) = inverseA T := by
  have hlin : a.linear * a.linear = T.linear := congrArg AffineCompact.linear hc
  have htr : a.linear.mulVec a.translation + a.translation = T.translation :=
    congrArg AffineCompact.translation hc
  have hcancel : a.linear⁻¹.mulVec (a.linear.mulVec a.translation) = a.translation := by
    rw [Matrix.mulVec_mulVec, Matrix.nonsing_inv_mul _ ha, Matrix.one_mulVec]
  rw [inverseA_def, inverseA_def, comp]
  refine congrArg₂ AffineCompact.mk ?_ ?_
  · rw [← hlin, Matrix.mul_inv_rev]
  · rw [← hlin, ← htr, Matrix.mul_inv_rev, Matrix.mulVec_neg, ← Matrix.mulVec_mulVec,
      Matrix.mulVec_add, Matrix.mulVec_add, hcancel]
    abel

end AffineCompact

/-- The post-conditions of `compute_halfspace_transformations` under the
determinant precondition and the square-root contract: the stored `trafo` is
unchanged, the stored half composes with itself to `trafo`, and the stored
half-inverse composes with itself to the (genuine) inverse of `trafo`.
These are exactly the `assert(trafo ≈ half*half)` /
`assert(trafo.inverse() ≈ half_inverse*half_inverse)` post-checks of the
source. -/
theorem halfspace_spec (sq : Mat4 → Mat4) (X : Base)
    (hd : 0 < X.trafo.toHomog.det)
    (hs : SqrtSpec (sq X.trafo.toHomog) X.trafo.toHomog) :
    (Base.compute_halfspace_transformations sq X).trafo = X.trafo ∧
    comp (Base.compute_halfspace_transformations sq X).trafo_half
      (Base.compute_halfspace_transformations sq X).trafo_half = X.trafo ∧
    comp (Base.compute_halfspace_transformations sq X).trafo_half_inverse
      (Base.compute_halfspace_transformations sq X).trafo_half_inverse =
        inverseA X.trafo ∧
    comp (inverseA X.trafo) X.trafo = idA ∧
    comp X.trafo (inverseA X.trafo) = idA := by
  have hcomp : comp (blockOf (sq X.trafo.toHomog)) (blockOf (sq X.trafo.toHomog)) =
      X.trafo := AffineCompact.comp_blockOf_self hs
  have hdT : IsUnit X.trafo.linear.det := by
    rw [← AffineCompact.det_toHomog]
    exact isUnit_iff_ne_zero.mpr hd.ne'
  have hdH : IsUnit (blockOf (sq X.trafo.toHomog)).linear.det := by
    have hlin : (blockOf (sq X.trafo.toHomog)).linear *
        (blockOf (sq X.trafo.toHomog)).linear = X.trafo.linear :=
      congrArg AffineCompact.linear hcomp
    have : (blockOf (sq X.trafo.toHomog)).linear.det *
        (blockOf (sq X.trafo.toHomog)).linear.det = X.trafo.linear.det := by
      rw [← Matrix.det_mul, hlin]
    rcases isUnit_iff_ne_zero.mp hdT with hne
    exact isUnit_iff_ne_zero.mpr fun h0 => hne (by rw [← this, h0, mul_zero])
  refine ⟨rfl, hcomp, ?_, AffineCompact.comp_inverseA_self hdT,
    AffineCompact.comp_self_inverseA hdT⟩
  exact AffineCompact.comp_inverseA_inverseA hdH hcomp

theorem toHomog_idA : AffineCompact.idA.toHomog = 1 := by
  ext i j
  cases i with
  | inl a =>
    cases j with
    | inl b => simp [AffineCompact.toHomog, AffineCompact.idA, Matrix.one_apply]
    | inr b => simp [AffineCompact.toHomog, AffineCompact.idA, Matrix.one_apply]
  | inr a =>
    obtain rfl : a = 0 := Fin.eq_zero a
    cases j with
    | inl b => simp [AffineCompact.toHomog, Matrix.one_apply]
    | inr b =>
      obtain rfl : b = 0 := Fin.eq_zero b
      simp [AffineCompact.toHomog, Matrix.one_apply]

theorem comp_idA_idA : comp AffineCompact.idA AffineCompact.idA = AffineCompact.idA := by
  rw [AffineCompact.comp, AffineCompact.idA]
  exact congrArg₂ AffineCompact.mk (one_mul 1)
    (by rw [Matrix.mulVec_zero, add_zero])

theorem inverseA_idA : inverseA AffineCompact.idA = AffineCompact.idA := by
  rw [AffineCompact.inverseA_def, AffineCompact.idA]
  have h1 : (1 : Mat3)⁻¹ = 1 := Matrix.inv_eq_left_inv (one_mul 1)
  exact congrArg₂ AffineCompact.mk h1 (by rw [h1, Matrix.mulVec_zero, neg_zero])

/-- C1: for every `Base` transform on which a mutation (`set_transform`,
`set_matrix`, `set_translation`, `set_centre`, `set_offset`) has completed
(debug semantics: the determinant precondition of
`compute_halfspace_transformations` passed), and whose homogeneous matrix the
square-root routine handled according to its contract, the stored half
composed with itself equals the stored full transform, and the stored
half-inverse composed with itself equals the (genuine) inverse of the full
transform. -/
theorem mutation_half_composition (sq : Mat4 → Mat4) (μ : Base.Mut) (s s' : Base)
    (hc : Base.applyMutChecked sq μ s = some s')
    (hs : SqrtSpec (sq s'.trafo.toHomog) s'.trafo.toHomog) :
    comp s'.trafo_half s'.trafo_half = s'.trafo ∧
    comp s'.trafo_half_inverse s'.trafo_half_inverse = inverseA s'.trafo ∧
    comp (inverseA s'.trafo) s'.trafo = AffineCompact.idA ∧
    comp s'.trafo (inverseA s'.trafo) = AffineCompact.idA := by
  rw [Base.applyMutChecked, Base.compute_halfspace_transformations_checked] at hc
  split_ifs at hc with hd
  · obtain rfl := Option.some.inj hc
    have h := halfspace_spec sq (μ.update s) hd hs
    exact ⟨h.2.1, h.2.2.1, h.2.2.2.1, h.2.2.2.2⟩

/-- Closed instance of `mutation_half_composition`: a `set_offset` mutation of
a fresh transform succeeds and satisfies the half-composition invariant. -/
theorem mutation_half_composition_witness :
    (Base.applyMutChecked sqrtId (Base.Mut.set_offset 0) (Base.init 0) =
      some (Base.compute_halfspace_transformations sqrtId
        ((Base.Mut.set_offset 0).update (Base.init 0)))) ∧
    SqrtSpec (sqrtId ((Base.Mut.set_offset 0).update (Base.init 0)).trafo.toHomog)
      ((Base.Mut.set_offset 0).update (Base.init 0)).trafo.toHomog ∧
    comp (Base.compute_halfspace_transformations sqrtId
        ((Base.Mut.set_offset 0).update (Base.init 0))).trafo_half
      (Base.compute_halfspace_transformations sqrtId
        ((Base.Mut.set_offset 0).update (Base.init 0))).trafo_half =
    (Base.compute_halfspace_transformations sqrtId
        ((Base.Mut.set_offset 0).update (Base.init 0))).trafo := by
  have htr : ((Base.Mut.set_offset (0 : Vec3)).update (Base.init 0)).trafo =
      AffineCompact.idA := rfl
  have hpos : 0 < ((Base.Mut.set_offset (0 : Vec3)).update (Base.init 0)).trafo.toHomog.det := by
    rw [htr, AffineCompact.det_toHomog,
      show AffineCompact.idA.linear = (1 : Mat3) from rfl, Matrix.det_one]
    exact one_pos
  have hs : SqrtSpec (sqrtId ((Base.Mut.set_offset 0).update (Base.init 0)).trafo.toHomog)
      ((Base.Mut.set_offset 0).update (Base.init 0)).trafo.toHomog := by
    rw [htr, toHomog_idA]
    refine ⟨one_mul 1, fun j => ?_, ?_⟩
    · exact Matrix.one_apply_ne (by simp)
    · exact Matrix.one_apply_eq _
  have hc : Base.applyMutChecked sqrtId (Base.Mut.set_offset 0) (Base.init 0) =
      some (Base.compute_halfspace_transformations sqrtId
        ((Base.Mut.set_offset 0).update (Base.init 0))) := by
    rw [Base.applyMutChecked, Base.compute_halfspace_transformations_checked, if_pos hpos]
  exact ⟨hc, hs, (mutation_half_composition sqrtId (Base.Mut.set_offset 0)
    (Base.init 0) _ hc hs).1⟩

/-- C2 (corrected), counterexample to the claim as stated: `set_transform`
does not recompute the translation offset about the stored centre — with
centre `(1,1,1)` and a pure scaling input transform, the stored translation
after `set_transform` is not `t + centre - M·centre`. -/
theorem set_transform_offset_counterexample :
    ¬ ((Base.set_transform sqrtId cxT cxS).trafo.translation =
        cxT.translation + cxS.centre - cxT.linear.mulVec cxS.centre) := by
  intro h
  have h0 := congrFun h 0
  have hL : (Base.set_transform sqrtId cxT cxS).trafo.translation 0 = 0 := rfl
  rw [hL] at h0
  have hR : (cxT.translation + cxS.centre - cxT.linear.mulVec cxS.centre) 0 = (-1 : ℚ) := by
    show cxT.translation 0 + cxS.centre 0 - cxT.linear.mulVec cxS.centre 0 = -1
    rw [show cxT.translation 0 = (0 : ℚ) from rfl, show cxS.centre 0 = (1 : ℚ) from rfl]
    rw [show cxT.linear.mulVec cxS.centre 0 =
      ((2 : ℚ) • (1 : Mat3)).mulVec (fun _ => (1 : ℚ)) 0 from rfl]
    rw [Matrix.smul_mulVec_assoc, Matrix.one_mulVec]
    norm_num
  rw [hR] at h0
  norm_num at h0

/-- C2 (amended): `set_matrix`, `set_translation` and `set_centre` first
recompute the translation offset (the stored translation becomes
`t + centre - M·centre` for the updated fields) and then recompute the two
half-space transforms from the current `trafo`; `set_transform` installs the
given 3×4 block verbatim (no offset recomputation) and then recomputes the
half-space transforms. -/
theorem mutators_offset_then_halves (sq : Mat4 → Mat4) (s : Base) (m : Mat3)
    (v c : Vec3) (t : AffineCompact) :
    (Base.set_matrix sq m s).trafo.linear = m ∧
    (Base.set_matrix sq m s).trafo.translation =
      s.trafo.translation + s.centre - m.mulVec s.centre ∧
    (Base.set_translation sq v s).trafo.translation =
      v + s.centre - s.trafo.linear.mulVec s.centre ∧
    (Base.set_centre sq c s).centre = c ∧
    (Base.set_centre sq c s).trafo.translation =
      s.trafo.translation + c - s.trafo.linear.mulVec c ∧
    (Base.set_transform sq t s).trafo = t ∧
    (Base.set_matrix sq m s).trafo_half =
      blockOf (sq (Base.set_matrix sq m s).trafo.toHomog) ∧
    (Base.set_matrix sq m s).trafo_half_inverse =
      inverseA (Base.set_matrix sq m s).trafo_half ∧
    (Base.set_transform sq t s).trafo_half =
      blockOf (sq (Base.set_transform sq t s).trafo.toHomog) ∧
    (Base.set_transform sq t s).trafo_half_inverse =
      inverseA (Base.set_transform sq t s).trafo_half :=
  ⟨rfl, rfl, rfl, rfl, rfl, rfl, rfl, rfl, rfl, rfl⟩

/-- C3: the half-space computation is guarded by the positive-determinant
precondition of the homogeneous matrix (`assert(tmp.determinant() > 0)`):
with non-positive determinant the checked computation fails fast (`none`),
and any successful computation implies the determinant was positive. -/
theorem halfspace_determinant_guard (sq : Mat4 → Mat4) (s : Base) :
    (s.trafo.toHomog.det ≤ 0 →
      Base.compute_halfspace_transformations_checked sq s = none) ∧
    (∀ s', Base.compute_halfspace_transformations_checked sq s = some s' →
      0 < s.trafo.toHomog.det ∧
      s' = Base.compute_halfspace_transformations sq s) := by
  constructor
  · intro hle
    rw [Base.compute_halfspace_transformations_checked, if_neg (not_lt.mpr hle)]
  · intro s' h
    rw [Base.compute_halfspace_transformations_checked] at h
    split_ifs at h with hd
    · exact ⟨hd, (Option.some.inj h).symm⟩

/-- Closed instance of `halfspace_determinant_guard`: a transform with zero
linear part (non-positive determinant) is rejected, and the fresh identity
transform (positive determinant) is accepted. -/
theorem halfspace_determinant_guard_witness :
    ({ Base.init 0 with trafo := ⟨0, 0⟩ } : Base).trafo.toHomog.det ≤ 0 ∧
    Base.compute_halfspace_transformations_checked sqrtId
      { Base.init 0 with trafo := ⟨0, 0⟩ } = none ∧
    Base.compute_halfspace_transformations_checked sqrtId (Base.init 0) =
      some (Base.compute_halfspace_transformations sqrtId (Base.init 0)) ∧
    0 < (Base.init 0).trafo.toHomog.det := by
  have hle : ({ Base.init 0 with trafo := ⟨0, 0⟩ } : Base).trafo.toHomog.det ≤ 0 := by
    rw [AffineCompact.det_toHomog,
      show ({ Base.init 0 with trafo := ⟨0, 0⟩ } : Base).trafo.linear = (0 : Mat3) from rfl,
      Matrix.det_zero ⟨(0 : Fin 3)⟩]
  have hpos : 0 < (Base.init 0).trafo.toHomog.det := by
    rw [AffineCompact.det_toHomog,
      show (Base.init 0).trafo.linear = (1 : Mat3) from rfl, Matrix.det_one]
    exact one_pos
  have hsome : Base.compute_halfspace_transformations_checked sqrtId (Base.init 0) =
      some (Base.compute_halfspace_transformations sqrtId (Base.init 0)) := by
    rw [Base.compute_halfspace_transformations_checked, if_pos hpos]
  exact ⟨hle, (halfspace_determinant_guard sqrtId _).1 hle, hsome, hpos⟩

/-- C4: when no robust estimator is implemented for a metric, the default
`robust_estimate` adds the unweighted sum of all per-neighbourhood gradient
estimates onto the incoming gradient and reports success, for every list of
gradient estimates. -/
theorem robust_estimate_default_sums (n : ℕ) {P V : Type} (g : Fin n → ℚ)
    (es : List (Fin n → ℚ)) (p : P) (pv : V) :
    Base.robust_estimate g es p pv = (g + es.sum, true) := by
  rw [Base.robust_estimate]
  refine congrArg₂ Prod.mk ?_ rfl
  induction es generalizing g with
  | nil => simp
  | cons e tl ih => simp [ih, add_assoc]

/-- C10: a freshly constructed `Base` (any parameter count) has its full,
half and half-inverse transforms all equal to the identity and its centre
equal to zero; `get_transform` returns the identity and the half-composition
invariant holds exactly. -/
theorem fresh_base_identity (n : ℕ) :
    (Base.init n).trafo = AffineCompact.idA ∧
    (Base.init n).trafo_half = AffineCompact.idA ∧
    (Base.init n).trafo_half_inverse = AffineCompact.idA ∧
    (Base.init n).centre = 0 ∧
    (Base.init n).get_transform = AffineCompact.idA ∧
    comp (Base.init n).trafo_half (Base.init n).trafo_half = (Base.init n).trafo ∧
    comp (Base.init n).trafo_half_inverse (Base.init n).trafo_half_inverse =
      inverseA (Base.init n).trafo ∧
    inverseA (Base.init n).trafo = AffineCompact.idA := by
  refine ⟨rfl, rfl, rfl, rfl, rfl, comp_idA_idA, ?_, inverseA_idA⟩
  rw [show (Base.init n).trafo_half_inverse = AffineCompact.idA from rfl,
    show (Base.init n).trafo = AffineCompact.idA from rfl, inverseA_idA]
  exact comp_idA_idA

/-- C5 (corrected), counterexample to the claim as stated: with
`-type rigid_affine` on 4-D inputs and NCC selected for the affine stage, the
run does fail with the NCC configuration error, but only after the rigid
stage's optimisation has already run — not before every optimisation of the
run. -/
theorem ncc_4d_after_rigid_counterexample :
    (runC (cfg5affine .rigid_affine)).err = some Err.nccNot4D ∧
    (runC (cfg5affine .rigid_affine)).events.any Event.isStageRun = true :=
  ⟨by decide, by decide⟩

/-- C5 (amended): selecting cross-correlation for a stage of a 4-D run fails
with a configuration error before any optimisation or resampling of that
stage starts: a rigid-NCC run fails before any stage execution at all, an
affine-NCC run without a rigid stage likewise, and an affine-NCC run with a
preceding rigid stage fails before the affine optimisation and before any
resampling. -/
theorem ncc_4d_fails_before_stage :
    (∀ t, (t = RegType.rigid ∨ t = .rigid_affine ∨ t = .rigid_syn ∨
        t = .rigid_affine_syn) →
      (runC (cfg5rigid t)).err = some Err.nccNot4D ∧
      (runC (cfg5rigid t)).events.all (fun e => !e.isStageRun) = true) ∧
    (∀ t, (t = RegType.affine ∨ t = .affine_syn) →
      (runC (cfg5affine t)).err = some Err.nccNot4D ∧
      (runC (cfg5affine t)).events.all (fun e => !e.isStageRun) = true) ∧
    (∀ t, (t = RegType.rigid_affine ∨ t = .rigid_affine_syn) →
      (runC (cfg5affine t)).err = some Err.nccNot4D ∧
      (runC (cfg5affine t)).events.all (fun e => !e.isAffineRun) = true ∧
      (runC (cfg5affine t)).events.all (fun e => !e.isResample) = true) := by
  refine ⟨?_, ?_, ?_⟩
  · rintro t (rfl | rfl | rfl | rfl) <;> exact ⟨by decide, by decide⟩
  · rintro t (rfl | rfl) <;> exact ⟨by decide, by decide⟩
  · rintro t (rfl | rfl) <;> exact ⟨by decide, by decide, by decide⟩

/-- Closed instance of `ncc_4d_fails_before_stage` at `-type rigid`. -/
theorem ncc_4d_fails_before_stage_witness :
    (runC (cfg5rigid .rigid)).err = some Err.nccNot4D ∧
    (runC (cfg5rigid .rigid)).events.all (fun e => !e.isStageRun) = true :=
  ncc_4d_fails_before_stage.1 .rigid (Or.inl rfl)

/-- C6: for every run resuming the nonlinear stage from a saved warp bundle,
a bundle image that is not 5-dimensional is rejected as a configuration
error, and an iteration-count list of length greater than one is rejected as
a configuration error, both before any stage execution — for every stage
choice that includes SyN. -/
theorem syn_resume_config_guards :
    (∀ t w, (t = RegType.syn ∨ t = .rigid_syn ∨ t = .affine_syn ∨
        t = .rigid_affine_syn) → w ≠ 5 →
      (runC (cfg6bundle t w)).err = some Err.synInitNot5D ∧
      (runC (cfg6bundle t w)).events.all (fun e => !e.isStageRun) = true) ∧
    (∀ t len, (t = RegType.syn ∨ t = .rigid_syn ∨ t = .affine_syn ∨
        t = .rigid_affine_syn) → 1 < len →
      (runC (cfg6niter t len)).err = some Err.synNiterResume ∧
      (runC (cfg6niter t len)).events.all (fun e => !e.isStageRun) = true) := by
  constructor
  · rintro t w (rfl | rfl | rfl | rfl) hw <;>
      (constructor <;>
        simp [hw, runC, run, RS.start, pstep, cfg6bundle, cfg0, stp_dims, stp_fod,
          stp_type, stp_rigid_file, stp_rigid_init, stp_rigid_centre, stp_rigid_scale,
          stp_rigid_niter, stp_rigid_metric, stp_rigid_global, stp_affine_file,
          stp_affine_1tomid, stp_affine_2tomid, stp_affine_init, stp_affine_centre,
          stp_affine_scale, stp_affine_repetitions, stp_affine_loop_density,
          stp_affine_metric, stp_affine_estimator, stp_affine_median, stp_affine_global,
          stp_affine_niter, stp_syn_warp, stp_syn_init, stp_syn_scale, stp_syn_niter,
          stp_syn_update_smooth, stp_syn_disp_smooth, stp_syn_grad_step, stp_run_rigid,
          stp_run_affine, stp_run_syn, stp_out_transformed, stp_out_midway,
          RS.fail, RS.emit, Event.isStageRun])
  · rintro t len (rfl | rfl | rfl | rfl) hl <;>
      (constructor <;>
        simp [hl, runC, run, RS.start, pstep, cfg6niter, cfg0, stp_dims, stp_fod,
          stp_type, stp_rigid_file, stp_rigid_init, stp_rigid_centre, stp_rigid_scale,
          stp_rigid_niter, stp_rigid_metric, stp_rigid_global, stp_affine_file,
          stp_affine_1tomid, stp_affine_2tomid, stp_affine_init, stp_affine_centre,
          stp_affine_scale, stp_affine_repetitions, stp_affine_loop_density,
          stp_affine_metric, stp_affine_estimator, stp_affine_median, stp_affine_global,
          stp_affine_niter, stp_syn_warp, stp_syn_init, stp_syn_scale, stp_syn_niter,
          stp_syn_update_smooth, stp_syn_disp_smooth, stp_syn_grad_step, stp_run_rigid,
          stp_run_affine, stp_run_syn, stp_out_transformed, stp_out_midway,
          RS.fail, RS.emit, Event.isStageRun])

/-- Closed instance of `syn_resume_config_guards`: a 4-D bundle and an
iteration list of length 2 are both rejected under `-type syn`. -/
theorem syn_resume_config_guards_witness :
    ((runC (cfg6bundle .syn 4)).err = some Err.synInitNot5D ∧
      (runC (cfg6bundle .syn 4)).events.all (fun e => !e.isStageRun) = true) ∧
    ((runC (cfg6niter .syn 2)).err = some Err.synNiterResume ∧
      (runC (cfg6niter .syn 2)).events.all (fun e => !e.isStageRun) = true) :=
  ⟨syn_resume_config_guards.1 .syn 4 (Or.inl rfl) (by decide),
   syn_resume_config_guards.2 .syn 2 (Or.inl rfl) (by decide)⟩

/-- C7: for every run resuming the nonlinear stage from a saved 5-D bundle
while a rigid and/or affine stage is also requested, the superseded linear
stage(s) are reported by warnings, the run completes without error, no linear
optimisation is executed, and the SyN stage receives the fresh
default-constructed (identity) transform. -/
theorem syn_resume_supersedes_linear (sq : Mat4 → Mat4) (rigid0 affine0 : Base)
    (rO aO : Base → Base) :
    ((run (cfg7 .rigid_syn) sq rigid0 affine0 rO aO).events =
        [.synInitialised, .warnNoRigid, .synRun affine0] ∧
      (run (cfg7 .rigid_syn) sq rigid0 affine0 rO aO).err = none) ∧
    ((run (cfg7 .affine_syn) sq rigid0 affine0 rO aO).events =
        [.synInitialised, .warnNoAffine, .synRun affine0] ∧
      (run (cfg7 .affine_syn) sq rigid0 affine0 rO aO).err = none) ∧
    ((run (cfg7 .rigid_affine_syn) sq rigid0 affine0 rO aO).events =
        [.synInitialised, .warnNoAffine, .warnNoRigid, .synRun affine0] ∧
      (run (cfg7 .rigid_affine_syn) sq rigid0 affine0 rO aO).err = none) := by
  refine ⟨⟨?_, ?_⟩, ⟨?_, ?_⟩, ⟨?_, ?_⟩⟩ <;>
    simp [run, RS.start, pstep, cfg7, cfg0, stp_dims, stp_fod,
      stp_type, stp_rigid_file, stp_rigid_init, stp_rigid_centre, stp_rigid_scale,
      stp_rigid_niter, stp_rigid_metric, stp_rigid_global, stp_affine_file,
      stp_affine_1tomid, stp_affine_2tomid, stp_affine_init, stp_affine_centre,
      stp_affine_scale, stp_affine_repetitions, stp_affine_loop_density,
      stp_affine_metric, stp_affine_estimator, stp_affine_median, stp_affine_global,
      stp_affine_niter, stp_syn_warp, stp_syn_init, stp_syn_scale, stp_syn_niter,
      stp_syn_update_smooth, stp_syn_disp_smooth, stp_syn_grad_step, stp_run_rigid,
      stp_run_affine, stp_run_syn, stp_out_transformed, stp_out_midway,
      RS.fail, RS.emit]

/-- C8 (corrected), counterexample to the claim as stated: `-rigid_metric`
supplied under the default `affine_syn` stage choice (rigid not selected) is
accepted silently — the run completes without error and registration
executes. -/
theorem unselected_option_silent_counterexample :
    (runC cfg8cx).err = none ∧ (runC cfg8cx).events.any Event.isStageRun = true :=
  ⟨by decide, by decide⟩

/-- C8 (amended): the output-file, scale, iteration, repetition and
loop-density options of the linear stages and every `syn_*` option raise a
configuration error before any stage execution when their stage is not
selected; the rigid/affine metric, robust-estimator, centre, initialisation
and global-search options carry no stage-selection check and are accepted as
silent no-ops. -/
theorem stage_option_selection_guards :
    (∀ o : GuardedOpt, (runC (cfg8g o)).err = some o.errOf ∧
      (runC (cfg8g o)).events.all (fun e => !e.isStageRun) = true) ∧
    (∀ o : UnguardedOpt, (runC (cfg8u o)).err = none ∧
      (runC (cfg8u o)).events.any Event.isStageRun = true) := by
  constructor
  · intro o; cases o <;> exact ⟨by decide, by decide⟩
  · intro o; cases o <;> exact ⟨by decide, by decide⟩

/-- C9: stage sequencing and seeding in the fixed order rigid → affine →
SyN: with all three stages the affine transform is seeded from the optimised
rigid result (centre, translation, matrix — `affineSeed`) with the automatic
initialisation policy disabled, and SyN receives the optimised affine
transform; with rigid+SyN, SyN receives the optimised rigid transform; with
SyN alone it receives the fresh default-constructed (identity) transform. -/
theorem stage_sequencing_seeds (sq : Mat4 → Mat4) (rO aO : Base → Base) :
    ((run (cfg9 .rigid_affine_syn) sq (Base.init 6) (Base.init 12) rO aO).events =
        [.rigidOptimisation (Base.init 6) none .meanSquared,
         .affineOptimisation (affineSeed sq (rO (Base.init 6)) (Base.init 12))
           (some .noInit) .meanSquared,
         .synRun (aO (affineSeed sq (rO (Base.init 6)) (Base.init 12)))] ∧
      (run (cfg9 .rigid_affine_syn) sq (Base.init 6) (Base.init 12) rO aO).err = none) ∧
    ((run (cfg9 .rigid_syn) sq (Base.init 6) (Base.init 12) rO aO).events =
        [.rigidOptimisation (Base.init 6) none .meanSquared,
         .synRun (rO (Base.init 6))] ∧
      (run (cfg9 .rigid_syn) sq (Base.init 6) (Base.init 12) rO aO).err = none) ∧
    ((run (cfg9 .syn) sq (Base.init 6) (Base.init 12) rO aO).events =
        [.synRun (Base.init 12)] ∧
      (run (cfg9 .syn) sq (Base.init 6) (Base.init 12) rO aO).err = none) := by
  refine ⟨⟨?_, ?_⟩, ⟨?_, ?_⟩, ⟨?_, ?_⟩⟩ <;>
    simp [run, RS.start, pstep, cfg9, cfg0, affineSeed, stp_dims, stp_fod,
      stp_type, stp_rigid_file, stp_rigid_init, stp_rigid_centre, stp_rigid_scale,
      stp_rigid_niter, stp_rigid_metric, stp_rigid_global, stp_affine_file,
      stp_affine_1tomid, stp_affine_2tomid, stp_affine_init, stp_affine_centre,
      stp_affine_scale, stp_affine_repetitions, stp_affine_loop_density,
      stp_affine_metric, stp_affine_estimator, stp_affine_median, stp_affine_global,
      stp_affine_niter, stp_syn_warp, stp_syn_init, stp_syn_scale, stp_syn_niter,
      stp_syn_update_smooth, stp_syn_disp_smooth, stp_syn_grad_step, stp_run_rigid,
      stp_run_affine, stp_run_syn, stp_out_transformed, stp_out_midway,
      RS.fail, RS.emit]

end MRtrix

